import Mathlib

/-!
Verification development for the PocketLink browser extension
(`src/extension/background.js`, `src/extension/offscreen.js`,
`src/extension/popup.js`).

The delivery core is shallowly embedded: host effects (Chrome APIs) are
represented by explicit environment records describing how each host call
would respond, and the mutable module-level flag `offscreenDocumentCreated`
together with the host-side existence of the offscreen document is threaded
as an explicit machine state. Thrown JavaScript errors are represented by
`Except String`.
-/

namespace PocketLink

/-- The three delivery modes of the spec.  In the source they appear as the
strings `offscreen` (Isolated), `injection` (Injected) and `popup` (Manual)
in `settings.interactionMode`. -/
inductive Mode
  | isolated
  | injected
  | manual
deriving DecidableEq, Repr

/-- Result of one strategy attempt: `ok` or a thrown error message. -/
abbrev Result := Except String Unit

/-- The subset of `PocketLinkSettings` consumed by `handleShortlink` and the
strategies (`interactionMode`, `showNotifications`, `fallbackMode`). -/
structure Settings where
  interactionMode : String
  showNotifications : Bool
  fallbackMode : Bool
deriving DecidableEq, Repr

/-- Host capabilities consulted by `ensureOffscreenDocument`:
whether `chrome.offscreen.createDocument` exists (Chrome 109+), whether
`chrome.runtime.getContexts` exists (Chrome 116+), and whether the
`getContexts` query, when invoked, throws. -/
structure Host where
  offscreenSupported : Bool
  getContextsAvailable : Bool
  getContextsThrows : Bool
deriving DecidableEq, Repr

/-- Mutable state around the offscreen document: the module-level
`offscreenDocumentCreated` flag of `background.js`, and whether an offscreen
document actually exists on the host side (what `getContexts` would report,
and what makes a second `createDocument` call fail). -/
structure MachState where
  flag : Bool
  ctx : Bool
deriving DecidableEq, Repr

/-- The `chrome.offscreen.createDocument` call at the end of
`ensureOffscreenDocument` (background.js lines 163-169): the host enforces
that at most one offscreen document exists, so creation throws when one is
already present; on success the module flag is set and `true` is returned. -/
def createOffscreenDocument (s : MachState) : Except String (Bool × MachState) :=
  if s.ctx then
    .error "Only a single offscreen document may be created."
  else
    .ok (true, { flag := true, ctx := true })

/-- `ensureOffscreenDocument` (background.js lines 134-170).
Throws when the offscreen facility is absent; on Chrome 116+ queries
`getContexts` and reuses an existing document (returning `false`), falling
through to creation when the query throws; on Chrome 109-115 consults the
module-level flag instead; otherwise creates the document and returns
`true`. -/
def ensureOffscreenDocument (h : Host) (s : MachState) :
    Except String (Bool × MachState) :=
  if h.offscreenSupported = false then
    .error "Offscreen documents are not supported in this browser."
  else if h.getContextsAvailable then
    if h.getContextsThrows = false ∧ s.ctx then
      .ok (false, s)
    else
      createOffscreenDocument s
  else if s.flag then
    .ok (false, s)
  else
    createOffscreenDocument s

/-- JavaScript `x || dflt` on an optional string field: an absent or empty
message falls back to the default. -/
def orDefaultMsg (o : Option String) (dflt : String) : String :=
  match o with
  | some e => if e = "" then dflt else e
  | none => dflt

/-- Response shape `{ success, error? }` that `copyViaOffscreen` expects from
the offscreen document. -/
structure BusResponse where
  success : Bool
  error : Option String
deriving DecidableEq, Repr

/-- Environment for one `copyViaOffscreen` run: the host capabilities, the
outcome of the awaited `chrome.runtime.sendMessage` round trip
(`.error` = the send itself rejected, `.ok none` = resolved with `undefined`,
as happens when no listener calls `sendResponse`, `.ok (some r)` = a response
object arrived), and whether `chrome.offscreen.closeDocument` fails. -/
structure OffEnv where
  host : Host
  sendResult : Except String (Option BusResponse)
  closeFails : Bool
deriving Repr

def successNotifMsg : String := "Shortlink created and copied to clipboard!"

def failNotifMsg : String := "Error creating shortlink. Please try again."

/-- Events of one `copyViaOffscreen` run: its result, the machine state
afterwards, whether `chrome.offscreen.closeDocument` was attempted, and the
notifications it displayed. -/
structure CopyOffOut where
  result : Result
  state : MachState
  closedAttempted : Bool
  notifs : List String
deriving Repr

/-- The `try` block of `copyViaOffscreen` (background.js lines 580-592):
awaits the `chrome.runtime.sendMessage` round trip, throws unless a response
object with `success: true` came back (no response resolves to `undefined`,
whose absent `success` fails the check; a failure response rethrows its
`error` message, falling back to a generic one when it is falsy), and shows
the success notification when enabled.  Returns the result and the
notifications shown. -/
def offscreenTryBlock (sendResult : Except String (Option BusResponse))
    (showNotifs : Bool) : Result × List String :=
  match sendResult with
  | .error e => (.error e, [])
  | .ok none => (.error "Clipboard write failed", [])
  | .ok (some r) =>
    if r.success then
      (.ok (), if showNotifs then [successNotifMsg] else [])
    else
      (.error (orDefaultMsg r.error "Clipboard write failed"), [])

/-- `copyViaOffscreen` (background.js lines 569-606).  Calls
`ensureOffscreenDocument`, rethrowing its failure without any cleanup;
otherwise runs the `try` block above, and in a `finally` block closes the
document exactly when this call created it (clearing the module flag even if
closing fails, whose error is only logged). -/
def copyViaOffscreen (env : OffEnv) (settings : Settings) (s : MachState) :
    CopyOffOut :=
  match ensureOffscreenDocument env.host s with
  | .error e => ⟨.error e, s, false, []⟩
  | .ok (created, s1) =>
    let tryOut := offscreenTryBlock env.sendResult settings.showNotifications
    if created then
      ⟨tryOut.1, ⟨false, if env.closeFails then s1.ctx else false⟩, true, tryOut.2⟩
    else
      ⟨tryOut.1, s1, false, tryOut.2⟩

/-- The `{ success, message? }` object returned by the function injected into
the page by `copyToClipboard`. -/
structure InjResult where
  success : Bool
  message : Option String
deriving DecidableEq, Repr

/-- Environment for one `copyToClipboard` run: the outcome of
`chrome.scripting.executeScript` (`.error` = injection rejected,
`.ok none` = no usable injection result, `.ok (some r)` = the injected
function returned `r`). -/
structure InjEnv where
  execResult : Except String (Option InjResult)
deriving Repr

/-- `copyToClipboard` (background.js lines 218-245).  Injects a clipboard
write into the tab; throws when the injection is rejected, when no result
comes back, or when the injected function reports failure (with its message,
defaulting to a generic one). -/
def copyToClipboard (env : InjEnv) : Result :=
  match env.execResult with
  | .error e => .error e
  | .ok none => .error "Clipboard write failed"
  | .ok (some r) =>
    if r.success then .ok ()
    else .error (orDefaultMsg r.message "Clipboard write failed")

/-- `showInPopup` (background.js lines 654-666).  Stores the shortlink under
`currentShortlink` in `chrome.storage.local`, then opens the popup window,
which may be refused by the host.  Returns the attempt result together with
the storage cell afterwards; the store happens before (and regardless of)
window creation. -/
def showInPopup (text : String) (windowCreateFails : Bool)
    (_localStore : Option String) : Result × Option String :=
  let stored := some text
  (if windowCreateFails then .error "Window creation failed" else .ok (),
   stored)

/-- Process-wide state threaded through one delivery: the offscreen machine
state and the `currentShortlink` cell of `chrome.storage.local`. -/
structure World where
  mach : MachState
  storage : Option String
deriving Repr

/-- Environment for one whole delivery: how the offscreen round trip, the
script injection and popup-window creation would each respond. -/
structure Env where
  offEnv : OffEnv
  injEnv : InjEnv
  windowCreateFails : Bool
deriving Repr

/-- The spec `Mode` a given `interactionMode` string dispatches to in
`handleShortlink`: `offscreen` is Isolated, `popup` is Manual, `injection`
and every unrecognized string take the injection path. -/
def modeOfString (m : String) : Mode :=
  if m = "offscreen" then .isolated
  else if m = "popup" then .manual
  else .injected

/-- Result of the `switch` body of `handleShortlink`: the primary attempt
result, the world afterwards, and the notifications shown so far. -/
structure Primary where
  result : Result
  world : World
  notifs : List String
deriving Repr

/-- The `switch (settings.interactionMode)` of `handleShortlink`
(background.js lines 486-508): `offscreen` runs `copyViaOffscreen`;
`injection` runs `copyToClipboard` and notifies on success; `popup` runs
`showInPopup`; the `default` arm repeats the injection body for unknown
modes. -/
def primaryAttempt (env : Env) (text : String) (settings : Settings)
    (w : World) : Primary :=
  if settings.interactionMode = "offscreen" then
    let o := copyViaOffscreen env.offEnv settings w.mach
    ⟨o.result, ⟨o.state, w.storage⟩, o.notifs⟩
  else if settings.interactionMode = "injection" then
    let r := copyToClipboard env.injEnv
    ⟨r, w,
     match r with
     | .ok _ => if settings.showNotifications then [successNotifMsg] else []
     | .error _ => []⟩
  else if settings.interactionMode = "popup" then
    let p := showInPopup text env.windowCreateFails w.storage
    ⟨p.1, ⟨w.mach, p.2⟩, []⟩
  else
    let r := copyToClipboard env.injEnv
    ⟨r, w,
     match r with
     | .ok _ => if settings.showNotifications then [successNotifMsg] else []
     | .error _ => []⟩

/-- Trace of one `handleShortlink` run: the attempt log (mode and result of
each strategy executed, in order), the error rethrown to the caller if any,
the notifications shown, and the world afterwards. -/
structure HSOut where
  attempts : List (Mode × Result)
  thrown : Option String
  notifs : List String
  world : World
deriving Repr

/-- `handleShortlink` (background.js lines 482-520).  Runs the primary
attempt; on failure, when `fallbackMode` is set and the mode is not already
`popup`, runs `showInPopup` as the single fallback (whose own failure
propagates); otherwise rethrows the primary error. -/
def handleShortlink (env : Env) (text : String) (settings : Settings)
    (w : World) : HSOut :=
  let p := primaryAttempt env text settings w
  let pmode := modeOfString settings.interactionMode
  match p.result with
  | .ok _ => ⟨[(pmode, .ok ())], none, p.notifs, p.world⟩
  | .error e =>
    if settings.fallbackMode = true ∧ settings.interactionMode ≠ "popup" then
      let f := showInPopup text env.windowCreateFails p.world.storage
      ⟨[(pmode, .error e), (.manual, f.1)],
       (match f.1 with | .ok _ => none | .error e2 => some e2),
       p.notifs, ⟨p.world.mach, f.2⟩⟩
    else
      ⟨[(pmode, .error e)], some e, p.notifs, p.world⟩

/-- The spec `DeliveryOutcome`: which mode succeeded, if any, and the ordered
attempt log. -/
structure DeliveryOutcome where
  succeededMode : Option Mode
  attempts : List (Mode × Result)
deriving Repr

/-- The mode that succeeded in an attempt log: execution stops at the first
`ok`, so a successful attempt is always the last entry. -/
def succeededOf (attempts : List (Mode × Result)) : Option Mode :=
  match attempts.getLast? with
  | some (m, .ok _) => some m
  | _ => none

/-- Result of one delivery as seen from the context-menu listener: the
outcome, every notification shown, and the world afterwards. -/
structure DeliverOut where
  outcome : DeliveryOutcome
  notifs : List String
  world : World
deriving Repr

/-- The delivery part of the `chrome.contextMenus.onClicked` listener
(background.js lines 360-369): awaits `handleShortlink` inside the
listener-level `try`; an error escaping `handleShortlink` is caught there
and turned into a single failure notification (when notifications are on),
so no strategy failure propagates past this point. -/
def deliverShortlink (env : Env) (text : String) (settings : Settings)
    (w : World) : DeliverOut :=
  let hs := handleShortlink env text settings w
  let caught : List String :=
    match hs.thrown with
    | some _ => if settings.showNotifications then [failNotifMsg] else []
    | none => []
  ⟨⟨succeededOf hs.attempts, hs.attempts⟩, hs.notifs ++ caught, hs.world⟩

/-- Body shape of a Bitly shorten response as consumed by `createShortlink`:
HTTP status ok or not, and the `link` field of the decoded JSON (absent or
empty strings are falsy in the source's `!data.link` check). -/
structure BitlyReply where
  httpOk : Bool
  link : Option String
deriving DecidableEq, Repr

/-- `createShortlink` (background.js lines 423-444).  Throws on a non-ok
HTTP status and on a missing or falsy `link` field; otherwise returns the
shortened URL, which is therefore never the empty string. -/
def createShortlink (reply : BitlyReply) : Except String String :=
  if reply.httpOk = false then
    .error "HTTP error"
  else
    match reply.link with
    | none => .error "Invalid response from Bit.ly API"
    | some l => if l = "" then .error "Invalid response from Bit.ly API" else .ok l

/-- Response shape `{ success, shortUrl?, error? }` of the
`createShortlinkFromPopup` message as read by `popup.js`. -/
structure ShortlinkResponse where
  success : Bool
  shortUrl : Option String
  error : Option String
deriving DecidableEq, Repr

/-- Environment for one popup-window load: the response the background
worker would give to `createShortlinkFromPopup` (`none` = the await resolved
with `undefined`). -/
structure PopupEnv where
  msgResponse : Option ShortlinkResponse
deriving DecidableEq, Repr

/-- What the popup window ends up rendering. -/
inductive PopupDisplay
  | success (url : String)
  | failure (msg : String)
deriving DecidableEq, Repr

/-- Events of one popup-window load: the `currentShortlink` storage cell
afterwards, what was displayed, and whether a fresh shortlink was requested
from the background worker. -/
structure PopupOut where
  storage : Option String
  display : PopupDisplay
  requestedFresh : Bool
deriving DecidableEq, Repr

/-- JavaScript truthiness of the stored `currentShortlink` value:
`undefined` and the empty string are falsy. -/
def truthyStr : Option String → Bool
  | some s => s ≠ ""
  | none => false

/-- The `DOMContentLoaded` listener of `popup.js` (lines 3-30).  If a truthy
stored shortlink exists it is removed from storage first and then displayed;
otherwise a fresh shortlink is requested via `createShortlinkFromPopup` and
the response (or its absence) is rendered. -/
def popupLoad (env : PopupEnv) (storage : Option String) : PopupOut :=
  if truthyStr storage then
    ⟨none, .success (storage.getD ""), false⟩
  else
    match env.msgResponse with
    | none => ⟨storage, .failure "Unable to create shortlink.", true⟩
    | some r =>
      if r.success then
        ⟨storage, .success (r.shortUrl.getD ""), true⟩
      else
        ⟨storage, .failure (orDefaultMsg r.error "Unable to create shortlink."), true⟩

/-- An entry of the Message Bus correlation table. -/
structure PendingMessage where
  correlationId : Nat
  sentAt : Nat
deriving DecidableEq, Repr

/-- Correlation state of the Message Bus: the next fresh identifier and the
pending table. -/
structure BusState where
  nextId : Nat
  pending : List PendingMessage
deriving DecidableEq, Repr

/-- Modelled from the spec: the Message Bus `send` of section 4.4.  The
repository has no bus implementation of its own — `copyViaOffscreen` calls
the host primitive `chrome.runtime.sendMessage` directly, and the
correlation and timeout bookkeeping the spec describes lives inside the
host.  Per the spec, `send` draws a fresh correlation identifier and records
a `PendingMessage` stamped with the send time. -/
def busSend (st : BusState) (now : Nat) : Nat × BusState :=
  (st.nextId, ⟨st.nextId + 1, st.pending ++ [⟨st.nextId, now⟩]⟩)

/-- Modelled from the spec: response arrival at the Message Bus.  A response
carrying a correlation identifier resolves (and removes) the matching
`PendingMessage` when one is pending; otherwise it is ignored. -/
def busReceive (st : BusState) (id : Nat) : BusState × Bool :=
  if st.pending.any (fun p => p.correlationId = id) then
    (⟨st.nextId, st.pending.filter (fun p => p.correlationId ≠ id)⟩, true)
  else
    (st, false)

/-- Modelled from the spec: the bounded wait.  At time `now`, every pending
message whose send time is at least `dur` ago is rejected with
`Err(Timeout)`; this returns the rejected correlation identifiers. -/
def busTimedOut (st : BusState) (now dur : Nat) : List Nat :=
  (st.pending.filter (fun p => p.sentAt + dur ≤ now)).map
    (fun p => p.correlationId)

/-! ## Helper lemmas -/

theorem offscreenTryBlock_error_notifs (sr : Except String (Option BusResponse))
    (b : Bool) (e : String) (h : (offscreenTryBlock sr b).1 = .error e) :
    (offscreenTryBlock sr b).2 = [] := by
  unfold offscreenTryBlock at h ⊢
  rcases sr with e' | o
  · rfl
  · rcases o with _ | r
    · rfl
    · cases hr : r.success <;> simp [hr] at h ⊢

theorem offscreenTryBlock_ok_notifs (sr : Except String (Option BusResponse))
    (b : Bool) (h : (offscreenTryBlock sr b).1 = .ok ()) :
    (offscreenTryBlock sr b).2 = if b then [successNotifMsg] else [] := by
  unfold offscreenTryBlock at h ⊢
  rcases sr with e' | o
  · simp at h
  · rcases o with _ | r
    · simp at h
    · cases hr : r.success <;> simp [hr] at h ⊢

theorem copyViaOffscreen_result_eq (env : OffEnv) (settings : Settings)
    (s : MachState) (created : Bool) (s1 : MachState)
    (hens : ensureOffscreenDocument env.host s = .ok (created, s1)) :
    (copyViaOffscreen env settings s).result =
      (offscreenTryBlock env.sendResult settings.showNotifications).1 ∧
    (copyViaOffscreen env settings s).notifs =
      (offscreenTryBlock env.sendResult settings.showNotifications).2 := by
  unfold copyViaOffscreen
  rw [hens]
  cases created <;> simp

theorem copyViaOffscreen_error_notifs (env : OffEnv) (settings : Settings)
    (s : MachState) (e : String)
    (h : (copyViaOffscreen env settings s).result = .error e) :
    (copyViaOffscreen env settings s).notifs = [] := by
  cases hens : ensureOffscreenDocument env.host s with
  | error e' => unfold copyViaOffscreen; rw [hens]
  | ok p =>
    obtain ⟨created, s1⟩ := p
    obtain ⟨hres, hn⟩ := copyViaOffscreen_result_eq env settings s created s1 hens
    rw [hn]
    exact offscreenTryBlock_error_notifs _ _ e (hres ▸ h)

theorem copyViaOffscreen_ok_notifs (env : OffEnv) (settings : Settings)
    (s : MachState) (h : (copyViaOffscreen env settings s).result = .ok ()) :
    (copyViaOffscreen env settings s).notifs =
      if settings.showNotifications then [successNotifMsg] else [] := by
  cases hens : ensureOffscreenDocument env.host s with
  | error e' =>
    unfold copyViaOffscreen at h
    rw [hens] at h
    simp at h
  | ok p =>
    obtain ⟨created, s1⟩ := p
    obtain ⟨hres, hn⟩ := copyViaOffscreen_result_eq env settings s created s1 hens
    rw [hn]
    exact offscreenTryBlock_ok_notifs _ _ (hres ▸ h)

theorem primaryAttempt_error_notifs (env : Env) (text : String)
    (settings : Settings) (w : World) (e : String)
    (h : (primaryAttempt env text settings w).result = .error e) :
    (primaryAttempt env text settings w).notifs = [] := by
  unfold primaryAttempt at h ⊢
  by_cases h1 : settings.interactionMode = "offscreen"
  · rw [if_pos h1] at h ⊢
    exact copyViaOffscreen_error_notifs _ _ _ e h
  · rw [if_neg h1] at h ⊢
    by_cases h2 : settings.interactionMode = "injection"
    · rw [if_pos h2] at h ⊢
      replace h : copyToClipboard env.injEnv = .error e := h
      simp [h]
    · rw [if_neg h2] at h ⊢
      by_cases h3 : settings.interactionMode = "popup"
      · rw [if_pos h3]
      · rw [if_neg h3] at h ⊢
        replace h : copyToClipboard env.injEnv = .error e := h
        simp [h]

theorem primaryAttempt_ok_notifs (env : Env) (text : String)
    (settings : Settings) (w : World)
    (hsn : settings.showNotifications = true)
    (hnp : settings.interactionMode ≠ "popup")
    (h : (primaryAttempt env text settings w).result = .ok ()) :
    (primaryAttempt env text settings w).notifs = [successNotifMsg] := by
  unfold primaryAttempt at h ⊢
  by_cases h1 : settings.interactionMode = "offscreen"
  · rw [if_pos h1] at h ⊢
    replace h : (copyViaOffscreen env.offEnv settings w.mach).result = .ok () := h
    show (copyViaOffscreen env.offEnv settings w.mach).notifs = [successNotifMsg]
    rw [copyViaOffscreen_ok_notifs _ _ _ h, hsn]
    rfl
  · rw [if_neg h1] at h ⊢
    by_cases h2 : settings.interactionMode = "injection"
    · rw [if_pos h2] at h ⊢
      replace h : copyToClipboard env.injEnv = .ok () := h
      simp [h, hsn]
    · rw [if_neg h2, if_neg hnp] at h ⊢
      replace h : copyToClipboard env.injEnv = .ok () := h
      simp [h, hsn]

theorem primaryAttempt_popup_notifs (env : Env) (text : String)
    (settings : Settings) (w : World)
    (hp : settings.interactionMode = "popup") :
    (primaryAttempt env text settings w).notifs = [] := by
  have h1 : settings.interactionMode ≠ "offscreen" := by simp [hp]
  have h2 : settings.interactionMode ≠ "injection" := by simp [hp]
  unfold primaryAttempt
  rw [if_neg h1, if_neg h2, if_pos hp]

theorem modeOfString_manual_iff (m : String) :
    modeOfString m = .manual ↔ m = "popup" := by
  unfold modeOfString
  split
  · simp_all
  · split <;> simp_all

/-! ## Claim theorems -/

/-- C5: starting from a state with no ephemeral context existing (and the
module flag clear), two immediately sequential calls to
`ensureOffscreenDocument` with no intervening release return `true` (created
by this call) and then `false` (already exists), both on the authoritative
`getContexts` host path and on the best-effort-flag host path. -/
theorem ensure_twice_true_then_false (h : Host)
    (hsupp : h.offscreenSupported = true)
    (hpath : (h.getContextsAvailable = true ∧ h.getContextsThrows = false) ∨
             h.getContextsAvailable = false) :
    ensureOffscreenDocument h ⟨false, false⟩ =
      .ok (true, ⟨true, true⟩) ∧
    ensureOffscreenDocument h ⟨true, true⟩ =
      .ok (false, ⟨true, true⟩) := by
  rcases hpath with ⟨ha, ht⟩ | ha
  · simp [ensureOffscreenDocument, createOffscreenDocument, hsupp, ha, ht]
  · simp [ensureOffscreenDocument, createOffscreenDocument, hsupp, ha]

/-- Witness for C5: both host paths at concrete capability records. -/
theorem ensure_twice_true_then_false_witness :
    (ensureOffscreenDocument ⟨true, true, false⟩ ⟨false, false⟩ =
        .ok (true, ⟨true, true⟩) ∧
     ensureOffscreenDocument ⟨true, true, false⟩ ⟨true, true⟩ =
        .ok (false, ⟨true, true⟩)) ∧
    (ensureOffscreenDocument ⟨true, false, false⟩ ⟨false, false⟩ =
        .ok (true, ⟨true, true⟩) ∧
     ensureOffscreenDocument ⟨true, false, false⟩ ⟨true, true⟩ =
        .ok (false, ⟨true, true⟩)) :=
  ⟨ensure_twice_true_then_false ⟨true, true, false⟩ rfl (.inl ⟨rfl, rfl⟩),
   ensure_twice_true_then_false ⟨true, false, false⟩ rfl (.inr rfl)⟩

/-- C10: when `getContexts` is available but throws, `ensureOffscreenDocument`
swallows the query error and does not consult the best-effort flag (the
result is the same for either flag value): it proceeds straight to creation,
returning `true` on creation success, and when a context already exists the
creation attempt is a duplicate that the host rejects — so the existing
context is not reused. -/
theorem ensure_query_failure_attempts_create (h : Host) (flag : Bool)
    (hsupp : h.offscreenSupported = true)
    (ha : h.getContextsAvailable = true)
    (ht : h.getContextsThrows = true) :
    ensureOffscreenDocument h ⟨flag, true⟩ =
      .error "Only a single offscreen document may be created." ∧
    ensureOffscreenDocument h ⟨flag, false⟩ =
      .ok (true, ⟨true, true⟩) := by
  simp [ensureOffscreenDocument, createOffscreenDocument, hsupp, ha, ht]

/-- Witness for C10, with the flag set — exactly the state where consulting
the flag would instead have reported an existing document. -/
theorem ensure_query_failure_attempts_create_witness :
    ensureOffscreenDocument ⟨true, true, true⟩ ⟨true, true⟩ =
      .error "Only a single offscreen document may be created." ∧
    ensureOffscreenDocument ⟨true, true, true⟩ ⟨true, false⟩ =
      .ok (true, ⟨true, true⟩) :=
  ⟨(ensure_query_failure_attempts_create ⟨true, true, true⟩ true rfl rfl rfl).1,
   (ensure_query_failure_attempts_create ⟨true, true, true⟩ true rfl rfl rfl).2⟩

/-- C4: in `copyViaOffscreen`, the ephemeral context is closed exactly when
this invocation created it.  When `ensureOffscreenDocument` itself fails the
strategy returns that error with no close attempted; otherwise the close is
attempted if and only if the call created the document — on every exit path,
including after a failed clipboard write — clearing the module flag (and the
context, when closing succeeds), while a context this call did not create is
left untouched. -/
theorem offscreen_release_iff_owned (env : OffEnv) (settings : Settings)
    (s : MachState) :
    (∀ e, ensureOffscreenDocument env.host s = .error e →
       copyViaOffscreen env settings s = ⟨.error e, s, false, []⟩) ∧
    (∀ created s1, ensureOffscreenDocument env.host s = .ok (created, s1) →
       (copyViaOffscreen env settings s).closedAttempted = created ∧
       (created = true →
          (copyViaOffscreen env settings s).state.flag = false ∧
          (env.closeFails = false →
             (copyViaOffscreen env settings s).state.ctx = false)) ∧
       (created = false → (copyViaOffscreen env settings s).state = s1)) := by
  constructor
  · intro e he
    unfold copyViaOffscreen
    rw [he]
  · intro created s1 hok
    unfold copyViaOffscreen
    rw [hok]
    cases created
    · simp
    · refine ⟨rfl, fun _ => ⟨rfl, fun hc => ?_⟩, by simp⟩
      simp [hc]

/-- Witness for C4: a run whose clipboard write failed and that created the
context attempts the close and clears both flag and context; a run on an
unsupported host returns the error with no close attempted. -/
theorem offscreen_release_iff_owned_witness :
    ((copyViaOffscreen ⟨⟨true, true, false⟩, .ok none, false⟩
        ⟨"offscreen", true, true⟩ ⟨false, false⟩).closedAttempted = true ∧
     (copyViaOffscreen ⟨⟨true, true, false⟩, .ok none, false⟩
        ⟨"offscreen", true, true⟩ ⟨false, false⟩).state.flag = false ∧
     (copyViaOffscreen ⟨⟨true, true, false⟩, .ok none, false⟩
        ⟨"offscreen", true, true⟩ ⟨false, false⟩).state.ctx = false) ∧
    copyViaOffscreen ⟨⟨false, true, false⟩, .ok none, false⟩
        ⟨"offscreen", true, true⟩ ⟨false, false⟩ =
      ⟨.error "Offscreen documents are not supported in this browser.",
       ⟨false, false⟩, false, []⟩ := by
  have h1 := (offscreen_release_iff_owned ⟨⟨true, true, false⟩, .ok none, false⟩
    ⟨"offscreen", true, true⟩ ⟨false, false⟩).2 true ⟨true, true⟩ rfl
  have h2 := (offscreen_release_iff_owned ⟨⟨false, true, false⟩, .ok none, false⟩
    ⟨"offscreen", true, true⟩ ⟨false, false⟩).1
    "Offscreen documents are not supported in this browser." rfl
  exact ⟨⟨h1.1, (h1.2.1 rfl).1, (h1.2.1 rfl).2 rfl⟩, h2⟩

/-- C1: whenever the preferred attempt fails, `fallbackMode` is on and the
preferred mode is not `popup`, `handleShortlink` makes exactly one fallback
attempt, that attempt uses the popup window (`Manual`), and the attempt
sequence has length exactly 2. -/
theorem fallback_chain_length_two (env : Env) (text : String)
    (settings : Settings) (w : World) (e : String)
    (hfb : settings.fallbackMode = true)
    (hnp : settings.interactionMode ≠ "popup")
    (hfail : (primaryAttempt env text settings w).result = .error e) :
    (handleShortlink env text settings w).attempts =
      [(modeOfString settings.interactionMode, .error e),
       (.manual,
        (showInPopup text env.windowCreateFails
          (primaryAttempt env text settings w).world.storage).1)] ∧
    (handleShortlink env text settings w).attempts.length = 2 := by
  refine ⟨?_, ?_⟩ <;> simp [handleShortlink, hfail, hfb, hnp]

/-- Witness for C1: blocked injection with fallback enabled. -/
theorem fallback_chain_length_two_witness :
    (handleShortlink ⟨⟨⟨true, true, false⟩, .ok none, false⟩, ⟨.error "blocked"⟩, false⟩
        "https-x" ⟨"injection", true, true⟩ ⟨⟨false, false⟩, none⟩).attempts =
      [(.injected, .error "blocked"), (.manual, .ok ())] ∧
    (handleShortlink ⟨⟨⟨true, true, false⟩, .ok none, false⟩, ⟨.error "blocked"⟩, false⟩
        "https-x" ⟨"injection", true, true⟩ ⟨⟨false, false⟩, none⟩).attempts.length = 2 :=
  ⟨(fallback_chain_length_two ⟨⟨⟨true, true, false⟩, .ok none, false⟩,
      ⟨.error "blocked"⟩, false⟩ "https-x" ⟨"injection", true, true⟩
      ⟨⟨false, false⟩, none⟩ "blocked" rfl (by decide) rfl).1,
   (fallback_chain_length_two ⟨⟨⟨true, true, false⟩, .ok none, false⟩,
      ⟨.error "blocked"⟩, false⟩ "https-x" ⟨"injection", true, true⟩
      ⟨⟨false, false⟩, none⟩ "blocked" rfl (by decide) rfl).2⟩

/-- C2: with `fallbackMode` off, or with `popup` as the preferred mode, the
attempt sequence is exactly the single primary attempt — whatever its result
— and no second strategy runs. -/
theorem single_attempt_when_no_fallback (env : Env) (text : String)
    (settings : Settings) (w : World)
    (h : settings.fallbackMode = false ∨ settings.interactionMode = "popup") :
    (handleShortlink env text settings w).attempts =
      [(modeOfString settings.interactionMode,
        (primaryAttempt env text settings w).result)] := by
  cases hp : (primaryAttempt env text settings w).result with
  | ok u => cases u; simp [handleShortlink, hp]
  | error e =>
    rcases h with h | h
    · simp [handleShortlink, hp, h]
    · simp [handleShortlink, hp, h]

/-- Witness for C2: both hypothesis cases — a failing injection with
fallback disabled, and a failing popup with fallback enabled. -/
theorem single_attempt_when_no_fallback_witness :
    (handleShortlink ⟨⟨⟨true, true, false⟩, .ok none, false⟩, ⟨.error "blocked"⟩, false⟩
        "https-x" ⟨"injection", true, false⟩ ⟨⟨false, false⟩, none⟩).attempts =
      [(.injected, .error "blocked")] ∧
    (handleShortlink ⟨⟨⟨true, true, false⟩, .ok none, false⟩, ⟨.ok none⟩, true⟩
        "https-x" ⟨"popup", true, true⟩ ⟨⟨false, false⟩, none⟩).attempts =
      [(.manual, .error "Window creation failed")] :=
  ⟨single_attempt_when_no_fallback ⟨⟨⟨true, true, false⟩, .ok none, false⟩,
      ⟨.error "blocked"⟩, false⟩ "https-x" ⟨"injection", true, false⟩
      ⟨⟨false, false⟩, none⟩ (.inl rfl),
   single_attempt_when_no_fallback ⟨⟨⟨true, true, false⟩, .ok none, false⟩,
      ⟨.ok none⟩, true⟩ "https-x" ⟨"popup", true, true⟩
      ⟨⟨false, false⟩, none⟩ (.inr rfl)⟩

/-- C6: any `interactionMode` string outside the recognized set
`offscreen`/`injection`/`popup` makes the whole delivery behave identically
to `injection` — same attempts, same rethrow, same notifications, same
state, including the fallback behavior — so no request is rejected for
carrying an unknown mode. -/
theorem unknown_mode_equals_injection (env : Env) (text : String) (w : World)
    (sn fb : Bool) (m : String)
    (h1 : m ≠ "offscreen") (h2 : m ≠ "injection") (h3 : m ≠ "popup") :
    handleShortlink env text ⟨m, sn, fb⟩ w =
      handleShortlink env text ⟨"injection", sn, fb⟩ w := by
  have d1 : ("injection" : String) ≠ "offscreen" := by decide
  have d3 : ("injection" : String) ≠ "popup" := by decide
  unfold handleShortlink primaryAttempt modeOfString
  simp only [if_neg h1, if_neg h2, if_neg h3, if_neg d1, if_neg d3, reduceIte]
  simp [h3, d3]

/-- Witness for C6: the unknown mode string `bogus`. -/
theorem unknown_mode_equals_injection_witness :
    handleShortlink ⟨⟨⟨true, true, false⟩, .ok none, false⟩, ⟨.error "blocked"⟩, false⟩
        "https-x" ⟨"bogus", true, true⟩ ⟨⟨false, false⟩, none⟩ =
      handleShortlink ⟨⟨⟨true, true, false⟩, .ok none, false⟩, ⟨.error "blocked"⟩, false⟩
        "https-x" ⟨"injection", true, true⟩ ⟨⟨false, false⟩, none⟩ :=
  unknown_mode_equals_injection ⟨⟨⟨true, true, false⟩, .ok none, false⟩,
    ⟨.error "blocked"⟩, false⟩ "https-x" ⟨⟨false, false⟩, none⟩ true true
    "bogus" (by decide) (by decide) (by decide)

/-- C3: every delivery produces a `DeliveryOutcome` — the attempt log is
never empty, an error that escapes `handleShortlink` is exactly the `Err` of
the outcome's last attempt (and the listener-level catch turns it into a
notification rather than propagating it), and a totally failed delivery has
every attempt recorded as `Err`. -/
theorem deliver_never_throws (env : Env) (text : String) (settings : Settings)
    (w : World) :
    (deliverShortlink env text settings w).outcome.attempts ≠ [] ∧
    (∀ e, (handleShortlink env text settings w).thrown = some e →
       ∃ m, (deliverShortlink env text settings w).outcome.attempts.getLast? =
         some (m, .error e)) ∧
    ((deliverShortlink env text settings w).outcome.succeededMode = none →
       ∀ a ∈ (deliverShortlink env text settings w).outcome.attempts,
         ∃ e2, a.2 = .error e2) := by
  have hout : (deliverShortlink env text settings w).outcome =
      ⟨succeededOf (handleShortlink env text settings w).attempts,
       (handleShortlink env text settings w).attempts⟩ := rfl
  rw [hout]
  cases hp : (primaryAttempt env text settings w).result with
  | ok u =>
    cases u
    simp [handleShortlink, hp, succeededOf]
  | error e =>
    by_cases hc : settings.fallbackMode = true ∧ settings.interactionMode ≠ "popup"
    · cases hw : env.windowCreateFails
      · simp [handleShortlink, hp, hc, showInPopup, hw, succeededOf]
      · simp [handleShortlink, hp, hc, showInPopup, hw, succeededOf]
    · simp [handleShortlink, hp, hc, succeededOf]

/-- Witness for C3: a delivery whose injection is blocked, fallback
disabled, so the primary error escapes `handleShortlink` and must appear as
the last logged attempt. -/
theorem deliver_never_throws_witness :
    (handleShortlink ⟨⟨⟨true, true, false⟩, .ok none, false⟩, ⟨.error "blocked"⟩, false⟩
        "https-x" ⟨"injection", true, false⟩ ⟨⟨false, false⟩, none⟩).thrown =
      some "blocked" ∧
    ∃ m, (deliverShortlink ⟨⟨⟨true, true, false⟩, .ok none, false⟩, ⟨.error "blocked"⟩, false⟩
        "https-x" ⟨"injection", true, false⟩ ⟨⟨false, false⟩, none⟩).outcome.attempts.getLast? =
      some (m, .error "blocked") :=
  ⟨rfl,
   (deliver_never_throws ⟨⟨⟨true, true, false⟩, .ok none, false⟩,
      ⟨.error "blocked"⟩, false⟩ "https-x" ⟨"injection", true, false⟩
      ⟨⟨false, false⟩, none⟩).2.1 "blocked" rfl⟩

/-- C9: a truthy stored shortlink is consumed exactly once — the popup-window
load removes it from storage before displaying it, so afterwards the
storage cell is empty, and any subsequent load finding empty storage
requests a fresh shortlink instead of redisplaying the old one.  (Stored
shortlinks are nonempty because `createShortlink` rejects a falsy `link`;
see `createShortlink_link_nonempty`.) -/
theorem popup_shortlink_consumed_once (env env2 : PopupEnv) (link : String)
    (hne : link ≠ "") :
    popupLoad env (some link) = ⟨none, .success link, false⟩ ∧
    (popupLoad env2 (popupLoad env (some link)).storage).requestedFresh = true ∧
    (popupLoad env2 (popupLoad env (some link)).storage).storage = none := by
  have h1 : popupLoad env (some link) = ⟨none, .success link, false⟩ := by
    simp [popupLoad, truthyStr, hne]
  refine ⟨h1, ?_, ?_⟩ <;>
    · rw [h1]
      rcases env2 with ⟨_ | r⟩
      · rfl
      · simp only [popupLoad, truthyStr]
        cases hr : r.success <;> simp [hr]

/-- Witness for C9 at a concrete stored link. -/
theorem popup_shortlink_consumed_once_witness :
    popupLoad ⟨none⟩ (some "https-y") = ⟨none, .success "https-y", false⟩ ∧
    (popupLoad ⟨none⟩ (popupLoad ⟨none⟩ (some "https-y")).storage).requestedFresh = true ∧
    (popupLoad ⟨none⟩ (popupLoad ⟨none⟩ (some "https-y")).storage).storage = none :=
  popup_shortlink_consumed_once ⟨none⟩ ⟨none⟩ "https-y" (by decide)

/-- The value `showInPopup` stores always comes from a successful
`createShortlink`, which throws on a falsy `link` — so stored shortlinks
are never the empty string, discharging the hypothesis of
`popup_shortlink_consumed_once` for every value the program can store. -/
theorem createShortlink_link_nonempty (reply : BitlyReply) (l : String)
    (h : createShortlink reply = .ok l) : l ≠ "" := by
  unfold createShortlink at h
  rcases hok : reply.httpOk with _ | _ <;> rw [hok] at h
  · simp at h
  · rcases hl : reply.link with _ | l' <;> rw [hl] at h
    · simp at h
    · by_cases he : l' = "" <;> simp [he] at h
      subst h
      exact he

/-- Counterexample to C8 as stated: a delivery that succeeds in Manual mode
(popup preferred, window created, notifications enabled) shows no
notification at all, although its `succeededMode` is not `None`. -/
theorem manual_success_no_notification :
    (deliverShortlink ⟨⟨⟨true, true, false⟩, .ok none, false⟩, ⟨.ok none⟩, false⟩
        "https-x" ⟨"popup", true, true⟩ ⟨⟨false, false⟩, none⟩).outcome.succeededMode =
      some .manual ∧
    (deliverShortlink ⟨⟨⟨true, true, false⟩, .ok none, false⟩, ⟨.ok none⟩, false⟩
        "https-x" ⟨"popup", true, true⟩ ⟨⟨false, false⟩, none⟩).notifs = [] :=
  ⟨rfl, rfl⟩

/-- C8 amended: with notifications enabled, a success notification is shown
exactly when the succeeding mode is a clipboard mode (`Isolated` or
`Injected`); a delivery that succeeds in `Manual` mode shows no notification
(the popup window itself is the user-visible surface); and a delivery with
`succeededMode = None` shows exactly one failure notification, not one per
failed attempt. -/
theorem notification_policy (env : Env) (text : String) (settings : Settings)
    (w : World) (hsn : settings.showNotifications = true) :
    (((deliverShortlink env text settings w).outcome.succeededMode = some .isolated ∨
      (deliverShortlink env text settings w).outcome.succeededMode = some .injected) →
      (deliverShortlink env text settings w).notifs = [successNotifMsg]) ∧
    ((deliverShortlink env text settings w).outcome.succeededMode = some .manual →
      (deliverShortlink env text settings w).notifs = []) ∧
    ((deliverShortlink env text settings w).outcome.succeededMode = none →
      (deliverShortlink env text settings w).notifs = [failNotifMsg]) := by
  cases hp : (primaryAttempt env text settings w).result with
  | ok u =>
    cases u
    have hsm_eq : (deliverShortlink env text settings w).outcome.succeededMode =
        some (modeOfString settings.interactionMode) := by
      simp [deliverShortlink, handleShortlink, hp, succeededOf]
    have hnotifs : (deliverShortlink env text settings w).notifs =
        (primaryAttempt env text settings w).notifs := by
      simp [deliverShortlink, handleShortlink, hp]
    refine ⟨?_, ?_, ?_⟩
    · rintro (hsm | hsm) <;>
      · rw [hsm_eq] at hsm
        simp only [Option.some.injEq] at hsm
        rw [hnotifs]
        refine primaryAttempt_ok_notifs env text settings w hsn ?_ hp
        intro hpq
        rw [(modeOfString_manual_iff settings.interactionMode).2 hpq] at hsm
        exact Mode.noConfusion hsm
    · intro hsm
      rw [hsm_eq] at hsm
      simp only [Option.some.injEq] at hsm
      rw [hnotifs]
      exact primaryAttempt_popup_notifs env text settings w
        ((modeOfString_manual_iff settings.interactionMode).1 hsm)
    · intro hsm
      rw [hsm_eq] at hsm
      exact absurd hsm (by simp)
  | error e =>
    have hpn : (primaryAttempt env text settings w).notifs = [] :=
      primaryAttempt_error_notifs env text settings w e hp
    by_cases hc : settings.fallbackMode = true ∧ settings.interactionMode ≠ "popup"
    · cases hw : env.windowCreateFails
      · have hsm_eq : (deliverShortlink env text settings w).outcome.succeededMode =
            some .manual := by
          simp [deliverShortlink, handleShortlink, hp, hc, showInPopup, hw, succeededOf]
        have hnotifs : (deliverShortlink env text settings w).notifs = [] := by
          simp [deliverShortlink, handleShortlink, hp, hc, showInPopup, hw, hpn]
        refine ⟨?_, fun _ => hnotifs, ?_⟩
        · rintro (hsm | hsm) <;> (rw [hsm_eq] at hsm; exact absurd hsm (by simp))
        · intro hsm
          rw [hsm_eq] at hsm
          exact absurd hsm (by simp)
      · have hsm_eq : (deliverShortlink env text settings w).outcome.succeededMode =
            none := by
          simp [deliverShortlink, handleShortlink, hp, hc, showInPopup, hw, succeededOf]
        have hnotifs : (deliverShortlink env text settings w).notifs = [failNotifMsg] := by
          simp [deliverShortlink, handleShortlink, hp, hc, showInPopup, hw, hpn, hsn]
        refine ⟨?_, ?_, fun _ => hnotifs⟩
        · rintro (hsm | hsm) <;> (rw [hsm_eq] at hsm; exact absurd hsm (by simp))
        · intro hsm
          rw [hsm_eq] at hsm
          exact absurd hsm (by simp)
    · have hsm_eq : (deliverShortlink env text settings w).outcome.succeededMode =
          none := by
        simp [deliverShortlink, handleShortlink, hp, hc, succeededOf]
      have hnotifs : (deliverShortlink env text settings w).notifs = [failNotifMsg] := by
        simp [deliverShortlink, handleShortlink, hp, hc, hpn, hsn]
      refine ⟨?_, ?_, fun _ => hnotifs⟩
      · rintro (hsm | hsm) <;> (rw [hsm_eq] at hsm; exact absurd hsm (by simp))
      · intro hsm
        rw [hsm_eq] at hsm
        exact absurd hsm (by simp)

/-- Witness for the amended C8: an injection success yields exactly the
success notification. -/
theorem notification_policy_witness :
    (deliverShortlink ⟨⟨⟨true, true, false⟩, .ok none, false⟩,
        ⟨.ok (some ⟨true, none⟩)⟩, false⟩
        "https-x" ⟨"injection", true, true⟩ ⟨⟨false, false⟩, none⟩).notifs =
      [successNotifMsg] :=
  (notification_policy ⟨⟨⟨true, true, false⟩, .ok none, false⟩,
      ⟨.ok (some ⟨true, none⟩)⟩, false⟩ "https-x" ⟨"injection", true, true⟩
      ⟨⟨false, false⟩, none⟩ rfl).1 (.inr rfl)

/-- C7 (bus modelled from the spec, since the repository delegates
correlation and timeout to the host messaging primitive): a `send` draws a
correlation identifier fresh with respect to every pending message, records
a `PendingMessage` stamped with the send time, a response carrying the
matching identifier resolves it (removing exactly that entry), and once the
bounded wait has elapsed the message is rejected as timed out.  On the
repository side, a send that rejects (for example with a timeout) while a
context was ensured surfaces as the Isolated strategy's own failure — the
error becomes `copyViaOffscreen`'s result instead of hanging or escaping as
a bus-level error. -/
theorem bus_correlation_timeout (st : BusState) (now dur : Nat)
    (env : OffEnv) (settings : Settings) (s : MachState)
    (hinv : ∀ p ∈ st.pending, p.correlationId < st.nextId) :
    (∀ p ∈ st.pending, p.correlationId ≠ (busSend st now).1) ∧
    (⟨(busSend st now).1, now⟩ : PendingMessage) ∈ (busSend st now).2.pending ∧
    ((busReceive (busSend st now).2 (busSend st now).1).2 = true ∧
     (busReceive (busSend st now).2 (busSend st now).1).1.pending = st.pending) ∧
    (busSend st now).1 ∈ busTimedOut (busSend st now).2 (now + dur) dur ∧
    (env.sendResult = .error "Timeout" →
     ∀ created s1, ensureOffscreenDocument env.host s = .ok (created, s1) →
       (copyViaOffscreen env settings s).result = .error "Timeout") := by
  have hfresh : ∀ p ∈ st.pending, p.correlationId ≠ (busSend st now).1 := by
    intro p hp
    exact Nat.ne_of_lt (hinv p hp)
  refine ⟨hfresh, ?_, ⟨?_, ?_⟩, ?_, ?_⟩
  · simp [busSend]
  · simp [busReceive, busSend]
  · simp only [busReceive, busSend]
    rw [if_pos (by simp)]
    simp only [List.filter_append]
    rw [List.filter_eq_self.2 (by
      intro p hp
      simpa using hfresh p hp), List.filter_cons, List.filter_nil]
    simp
  · simp [busTimedOut, busSend]
  · intro hto created s1 hens
    exact ((copyViaOffscreen_result_eq env settings s created s1 hens).1).trans
      (by rw [hto]; rfl)

/-- Witness for C7: a send from the empty bus state resolves on its own
correlation identifier, times out after the bound, and a Timeout rejection
of the real `sendMessage` round trip is returned as `copyViaOffscreen`'s
error. -/
theorem bus_correlation_timeout_witness :
    ((busReceive (busSend ⟨0, []⟩ 0).2 (busSend ⟨0, []⟩ 0).1).2 = true ∧
     (busReceive (busSend ⟨0, []⟩ 0).2 (busSend ⟨0, []⟩ 0).1).1.pending = []) ∧
    (busSend ⟨0, []⟩ 0).1 ∈ busTimedOut (busSend ⟨0, []⟩ 0).2 (0 + 5) 5 ∧
    (copyViaOffscreen ⟨⟨true, true, false⟩, .error "Timeout", false⟩
        ⟨"offscreen", true, true⟩ ⟨false, false⟩).result = .error "Timeout" := by
  have h := bus_correlation_timeout ⟨0, []⟩ 0 5
    ⟨⟨true, true, false⟩, .error "Timeout", false⟩ ⟨"offscreen", true, true⟩
    ⟨false, false⟩ (by simp)
  exact ⟨h.2.2.1, h.2.2.2.1, h.2.2.2.2 rfl true ⟨true, true⟩ rfl⟩

end PocketLink
